import Mathlib

/-!
Shallow embedding of the e2b-template rendering pipeline:
`extract_frames.py` (Metadata Extractor), `read_blend_header.py`
(Header Sniffer and its fallback entry point) and `render_mp4.py`
(Render Driver, Progress Tracker, Crash Shield), with theorems about
the spec's claims.

Machine integers are modelled as `Int`/`Nat` (Python ints are unbounded,
so no wrap-around modelling is needed); byte strings as `List Nat`;
fallible I/O as `Option`; dictionaries emitted as JSON as association
lists preserving key order.
-/

/-! ## Substring matching (Python's `"needle" in haystack` / `str.lower`) -/

/-- `charsPrefix n h` : the char list `n` is a prefix of `h`. -/
def charsPrefix : List Char → List Char → Bool
  | [], _ => true
  | _ :: _, [] => false
  | a :: as, b :: bs => a == b && charsPrefix as bs

/-- `charsContain n h` : the char list `n` occurs contiguously inside `h`. -/
def charsContain (needle : List Char) : List Char → Bool
  | [] => charsPrefix needle []
  | b :: bs => charsPrefix needle (b :: bs) || charsContain needle bs

/-- Python's `needle in hay` on strings: contiguous substring test. -/
def strContains (hay needle : String) : Bool :=
  charsContain needle.toList hay.toList

/-- Python's `str.lower()` (modelled on ASCII case mapping; the only
needle matched case-insensitively in the source is the ASCII word
`"fault"`). -/
def strToLower (s : String) : String :=
  String.mk (s.toList.map Char.toLower)

/-! ## Strategy Ladder (shared by `extract_frames.py` lines 27-53 and
`render_mp4.py` lines 78-105) -/

/-- One entry of the `strategies` list: the kwargs passed to
`bpy.ops.wm.open_mainfile`.  A `none` field means the kwarg is absent. -/
structure OpenStrategy where
  load_ui : Option Bool
  use_scripts : Option Bool
  use_embedded_data : Option Bool
deriving DecidableEq

/-- The declared ladder, most restrictive first (identical in both
`extract_frames.py` and `render_mp4.py`). -/
def strategies : List OpenStrategy :=
  [ { load_ui := some false, use_scripts := some false, use_embedded_data := some false },
    { load_ui := some false, use_scripts := some false, use_embedded_data := none },
    { load_ui := some false, use_scripts := none, use_embedded_data := none },
    { load_ui := none, use_scripts := none, use_embedded_data := none } ]

/-- Outcome of one `open_mainfile` attempt: success, or an exception
whose message is `msg`. -/
inductive Outcome
  | success
  | failure (msg : String)
deriving DecidableEq

/-- The fatal-indicator denylist check of
`if "Segmentation" in str(e) or "fault" in str(e).lower(): raise`. -/
def isFatalMsg (msg : String) : Bool :=
  strContains msg ("Segmentation") || strContains (strToLower msg) ("fault")

/-- Result of running the whole ladder. -/
inductive LadderResult
  | opened
  | notOpened
  | fatal (msg : String)
deriving DecidableEq

/-- The `for strategy in strategies` loop: returns the list of strategies
actually attempted, in order, and the final result.  A non-fatal failure
falls through to the next strategy; a fatal one re-raises. -/
def runLadder (engine : OpenStrategy → Outcome) : List OpenStrategy → List OpenStrategy × LadderResult
  | [] => ([], LadderResult.notOpened)
  | s :: rest =>
    match engine s with
    | Outcome.success => ([s], LadderResult.opened)
    | Outcome.failure msg =>
      if isFatalMsg msg then ([s], LadderResult.fatal msg)
      else
        let r := runLadder engine rest
        (s :: r.1, r.2)

/-! ## Metadata Extractor (`extract_frames.py` lines 55-85) -/

/-- The JSON result emitted by `extract_frames.py` on success. -/
structure SceneMetadata where
  frame_start : Int
  frame_end : Int
  frame_count : Int
  fps : Int
deriving DecidableEq

/-- Frame-range ingestion of `extract_frames.py` lines 59-71: missing
attributes default to `1` / `250`, and an inverted range is reset to the
fixed pair `(1, 250)`. -/
def extract_frame_range (sceneFrameStart sceneFrameEnd : Option Int) : Int × Int :=
  let fs := sceneFrameStart.getD 1
  let fe := sceneFrameEnd.getD 250
  if fs > fe then (1, 250) else (fs, fe)

/-- The `SceneMetadata` built by `extract_frames.py` lines 59-85:
`frame_count = max(1, frame_end - frame_start + 1)`, fps defaulting
to 24 when unreadable. -/
def extract_metadata (sceneFrameStart sceneFrameEnd sceneFps : Option Int) : SceneMetadata :=
  let p := extract_frame_range sceneFrameStart sceneFrameEnd
  { frame_start := p.1
    frame_end := p.2
    frame_count := max 1 (p.2 - p.1 + 1)
    fps := sceneFps.getD 24 }

/-! ## Header Sniffer (`read_blend_header.py` lines 11-44) -/

/-- The 7-byte magic constant `b'BLENDER'`. -/
def blenderMagic : List Nat := [66, 76, 69, 78, 68, 69, 82]

/-- Python's `bytes.decode('ascii', errors='ignore')`: bytes outside the
ASCII range are dropped rather than failing the decode. -/
def asciiIgnore (bs : List Nat) : String :=
  String.mk ((bs.filter (fun b => decide (b < 128))).map Char.ofNat)

/-- The dictionary returned by `read_blend_header` on success. -/
structure HeaderInfo where
  version : String
  file_size : Nat
  pointer_size : String
deriving DecidableEq

/-- `read_blend_header(blend_file)`: the file is modelled as
`Option (List Nat)` — `none` is any I/O failure raised by `open`/`read`
(caught by the function's `except` and mapped to `None`), `some bytes`
the full byte content.  `f.read(12)` is `bytes.take 12`; seek-to-end
file size is `bytes.length`. -/
def read_blend_header : Option (List Nat) → Option HeaderInfo
  | none => none
  | some bytes =>
    let header := bytes.take 12
    if header.length < 12 then none
    else if header.take 7 ≠ blenderMagic then none
    else
      some { version := asciiIgnore ((header.drop 9).take 3)
             file_size := bytes.length
             pointer_size := if header.getD 7 0 = 95 then "64-bit" else "32-bit" }

/-! ## Fallback entry point (`read_blend_header.py` lines 46-72) -/

/-- A JSON scalar appearing in the emitted records. -/
inductive JVal
  | num (n : Int)
  | str (s : String)
deriving DecidableEq

/-- The estimated-defaults record emitted when the header sniff
succeeds (`read_blend_header.py` lines 59-66), key order preserved. -/
def fallback_success_record (hi : HeaderInfo) : List (String × JVal) :=
  [ (("frame_start"), JVal.num 1),
    (("frame_end"), JVal.num 250),
    (("frame_count"), JVal.num 250),
    (("fps"), JVal.num 24),
    (("note"), JVal.str ("Estimated values - file could not be fully opened")),
    (("blender_version"), JVal.str hi.version) ]

/-- The error record emitted when the header sniff also fails
(`read_blend_header.py` line 70). -/
def parse_error_record : List (String × JVal) :=
  [ (("error"), JVal.str ("Could not read blend file header")),
    (("error_type"), JVal.str ("ParseError")) ]

/-- The error record for a missing input path (`read_blend_header.py`
line 50). -/
def file_not_found_record (path : String) : List (String × JVal) :=
  [ (("error"), JVal.str ("File not found: " ++ path)),
    (("error_type"), JVal.str ("FileNotFoundError")) ]

/-- `__main__` of `read_blend_header.py`: emits one JSON record and an
exit code.  `fileExists` models `os.path.exists`; `file` the readable
content as in `read_blend_header`. -/
def read_blend_header_main (path : String) (fileExists : Bool)
    (file : Option (List Nat)) : List (String × JVal) × Nat :=
  if fileExists = false then (file_not_found_record path, 1)
  else
    match read_blend_header file with
    | some hi => (fallback_success_record hi, 0)
    | none => (parse_error_record, 1)

/-! ## Crash Shield (`render_mp4.py` lines 8-26) -/

/-- The error/terminal record shape `{success, error, error_type}`. -/
structure ErrorRecord where
  success : Bool
  error : String
  error_type : String
deriving DecidableEq

/-- The f-string `f"Process terminated by signal {signum}"`. -/
def signalErrorMessage (signum : Nat) : String :=
  "Process terminated by signal " ++ toString signum

/-- The record serialized by `signal_handler`. -/
def signalErrorRecord (signum : Nat) : ErrorRecord :=
  { success := false
    error := signalErrorMessage signum
    error_type := "SignalError" }

/-- `signal_handler(signum, frame)`: best-effort emission of the record
(`emitOk = false` models a failing `print`/`flush`, swallowed by the bare
`except: pass`), then `sys.exit(128 + signum)`.  Returns the records
written to stderr and the exit code passed to `sys.exit`. -/
def signal_handler (signum : Nat) (emitOk : Bool) : List ErrorRecord × Nat :=
  ((if emitOk then [signalErrorRecord signum] else []), 128 + signum)

/-! ## Progress Tracker (`render_mp4.py` lines 41-69 and 110-158, 220-229) -/

/-- One progress-file payload, as written by `_write_progress`.  Times
are abstract clock readings (the code stores `time.time()` values and
never computes with them, so their arithmetic is irrelevant). -/
structure ProgressRecord where
  status : String
  frameStart : Int
  frameEnd : Int
  frameCount : Int
  currentFrame : Int
  framesDone : Int
  startedAt : Nat
  updatedAt : Nat
deriving DecidableEq

/-- `_ensure_started_at()`: recover `startedAt` from an existing readable
progress record, else use the current clock (`time.time()`).  `existing`
is the result of `_read_existing_progress` (`none` on any read failure). -/
def ensure_started_at (existing : Option ProgressRecord) (now : Nat) : Nat :=
  match existing with
  | some r => r.startedAt
  | none => now

/-- The values captured once by `render_mp4.py` lines 110-113, before the
handlers are registered, and closed over by every handler. -/
structure RenderCtx where
  started_at : Nat
  frame_start : Int
  frame_end : Int
  frame_count : Int
deriving DecidableEq

/-- Lines 110-113: `started_at = _ensure_started_at()`;
`frame_start/frame_end` from the scene; `frame_count = frame_end -
frame_start + 1` (note: no clamping to 1 here, unlike the extractor). -/
def mkRenderCtx (existing : Option ProgressRecord) (now : Nat)
    (sceneFrameStart sceneFrameEnd : Int) : RenderCtx :=
  { started_at := ensure_started_at existing now
    frame_start := sceneFrameStart
    frame_end := sceneFrameEnd
    frame_count := sceneFrameEnd - sceneFrameStart + 1 }

/-- `on_render_init` handler payload (lines 115-125). -/
def on_render_init (ctx : RenderCtx) (sceneFrameCurrent : Int) (now : Nat) : ProgressRecord :=
  { status := "rendering"
    frameStart := ctx.frame_start
    frameEnd := ctx.frame_end
    frameCount := ctx.frame_count
    currentFrame := sceneFrameCurrent
    framesDone := max 0 (sceneFrameCurrent - ctx.frame_start)
    startedAt := ctx.started_at
    updatedAt := now }

/-- `on_render_post` handler payload (lines 127-139). -/
def on_render_post (ctx : RenderCtx) (sceneFrameCurrent : Int) (now : Nat) : ProgressRecord :=
  { status := "rendering"
    frameStart := ctx.frame_start
    frameEnd := ctx.frame_end
    frameCount := ctx.frame_count
    currentFrame := sceneFrameCurrent
    framesDone := max 0 (sceneFrameCurrent - ctx.frame_start + 1)
    startedAt := ctx.started_at
    updatedAt := now }

/-- `on_render_cancel` handler payload (lines 141-151). -/
def on_render_cancel (ctx : RenderCtx) (sceneFrameCurrent : Int) (now : Nat) : ProgressRecord :=
  { status := "cancelled"
    frameStart := ctx.frame_start
    frameEnd := ctx.frame_end
    frameCount := ctx.frame_count
    currentFrame := sceneFrameCurrent
    framesDone := max 0 (sceneFrameCurrent - ctx.frame_start)
    startedAt := ctx.started_at
    updatedAt := now }

/-- The completion write issued by the driver itself (lines 220-229). -/
def completed_progress (ctx : RenderCtx) (now : Nat) : ProgressRecord :=
  { status := "completed"
    frameStart := ctx.frame_start
    frameEnd := ctx.frame_end
    frameCount := ctx.frame_count
    currentFrame := ctx.frame_end
    framesDone := ctx.frame_count
    startedAt := ctx.started_at
    updatedAt := now }

/-! ## Render Driver output verification and result (lines 199-233) -/

/-- The fixed output artifact path (line 41). -/
def output_path : String := "/tmp/output.mp4"

/-- The success result record of lines 206-218 (resolution omitted:
opaque engine values copied through unchanged). -/
structure ResultRecord where
  success : Bool
  outPath : String
  file_size : Nat
  frame_start : Int
  frame_end : Int
  frame_count : Int
  fps : Int
deriving DecidableEq

/-- Outcome of the post-render phase: a raised exception (classified by
its Python class name) or the emitted success record. -/
inductive RenderOutcome
  | failure (error_type : String) (error : String)
  | ok (r : ResultRecord)
deriving DecidableEq

/-- Lines 199-218: after the engine's render call returns, raise
`FileNotFoundError` when the artifact is absent, else read its size with
`os.path.getsize` and build the success record.  There is no emptiness
check: an existing zero-byte artifact passes. -/
def verify_output (outputExists : Bool) (fileSize : Nat) (ctx : RenderCtx)
    (fps : Int) : RenderOutcome :=
  if outputExists = false then
    RenderOutcome.failure ("FileNotFoundError") ("Output file was not created: " ++ output_path)
  else
    RenderOutcome.ok
      { success := true
        outPath := output_path
        file_size := fileSize
        frame_start := ctx.frame_start
        frame_end := ctx.frame_end
        frame_count := ctx.frame_count
        fps := fps }

/-! ## Top-level exception dispatch of `render_mp4.py` (lines 235-263) -/

/-- A terminal JSON record on the diagnostic channel. -/
inductive TermRecord
  | ok (r : ResultRecord)
  | err (e : ErrorRecord)
deriving DecidableEq

/-- The exception escaping the `try` body, as seen by the `except`
clauses: `SystemExit` (carrying its code), `KeyboardInterrupt`, or any
other exception with its class name and message. -/
inductive BodyExc
  | sysExit (code : Nat)
  | keyboardInterrupt
  | otherExc (name : String) (msg : String)
deriving DecidableEq

/-- The `except` ladder: `KeyboardInterrupt` → record + exit 130;
`SystemExit` → bare `raise`, preserving the code and emitting nothing;
`Exception` → generic record + exit 1. -/
def top_level_dispatch : BodyExc → List TermRecord × Nat
  | BodyExc.keyboardInterrupt =>
    ([TermRecord.err { success := false, error := "Process interrupted", error_type := "KeyboardInterrupt" }], 130)
  | BodyExc.sysExit code => ([], code)
  | BodyExc.otherExc name msg =>
    ([TermRecord.err { success := false, error := msg, error_type := name }], 1)

/-- How one invocation of the driver's `try` body ends. -/
inductive BodyOutcome
  | success (r : ResultRecord)
  | signaled (signum : Nat)
  | interrupted
  | failed (name : String) (msg : String)

/-- Records the body itself emits before control reaches the `except`
ladder, and the exception it raises: the success path prints the result
then calls `sys.exit(0)`; an intercepted signal runs `signal_handler`,
whose `sys.exit(128+signum)` propagates as `SystemExit`. -/
def body_emits : BodyOutcome → List TermRecord × BodyExc
  | BodyOutcome.success r => ([TermRecord.ok r], BodyExc.sysExit 0)
  | BodyOutcome.signaled n =>
    ((signal_handler n true).1.map TermRecord.err, BodyExc.sysExit (signal_handler n true).2)
  | BodyOutcome.interrupted => ([], BodyExc.keyboardInterrupt)
  | BodyOutcome.failed name msg => ([], BodyExc.otherExc name msg)

/-- A whole invocation: body emission followed by the `except` ladder;
yields all terminal records, in emission order, and the process exit
code. -/
def driver_run (o : BodyOutcome) : List TermRecord × Nat :=
  let b := body_emits o
  let t := top_level_dispatch b.2
  (b.1 ++ t.1, t.2)

/-! ## Helper lemmas -/

theorem charsPrefix_self (l : List Char) : charsPrefix l l = true := by
  induction l with
  | nil => rfl
  | cons a as ih => simp [charsPrefix, ih]

theorem charsContain_append_self (x n : List Char) :
    charsContain n (x ++ n) = true := by
  induction x with
  | nil =>
    cases n with
    | nil => rfl
    | cons c cs => simp [charsContain, charsPrefix_self]
  | cons b bs ih => simp [charsContain, ih]

theorem runLadder_nonfatal_skip (engine : OpenStrategy → Outcome) :
    ∀ (pre rest : List OpenStrategy),
    (∀ t ∈ pre, ∃ m, engine t = Outcome.failure m ∧ isFatalMsg m = false) →
    runLadder engine (pre ++ rest) =
      (pre ++ (runLadder engine rest).1, (runLadder engine rest).2) := by
  intro pre
  induction pre with
  | nil => intro rest _; simp
  | cons p ps ih =>
    intro rest hfail
    obtain ⟨m, hm, hnf⟩ := hfail p (List.mem_cons_self p ps)
    have htail := ih rest (fun t ht => hfail t (List.mem_cons_of_mem p ht))
    simp [runLadder, hm, hnf, htail]

/-! ## Claim theorems -/

/-- Claim C1, counterexample: the Render Driver (`render_mp4.py` line
113) computes `frame_count = frame_end - frame_start + 1` with no
clamping, so for a scene with `frame_start = 2, frame_end = 1` it
produces `frame_count = 0`, not `max(1, frame_end - frame_start + 1) = 1`. -/
theorem render_driver_frame_count_violates_invariant :
    (mkRenderCtx none 0 2 1).frame_count = 0 ∧
    max 1 ((mkRenderCtx none 0 2 1).frame_end - (mkRenderCtx none 0 2 1).frame_start + 1) = 1 ∧
    (mkRenderCtx none 0 2 1).frame_count ≠
      max 1 ((mkRenderCtx none 0 2 1).frame_end - (mkRenderCtx none 0 2 1).frame_start + 1) := by
  exact ⟨rfl, by decide, by decide⟩

/-- Claim C1, amended: the Metadata Extractor's `SceneMetadata` always
satisfies `frame_count = max(1, frame_end - frame_start + 1)` (with
`frame_count = 1` when `frame_start = frame_end`); the Render Driver's
`frame_count` is the unclamped `frame_end - frame_start + 1`, which
equals `max(1, frame_end - frame_start + 1)` exactly when
`frame_start ≤ frame_end` (and is `1` when they are equal). -/
theorem frame_count_invariant (ofs ofe ofps : Option Int) (v : Int)
    (existing : Option ProgressRecord) (now : Nat) (sfs sfe : Int) :
    (extract_metadata ofs ofe ofps).frame_count =
      max 1 ((extract_metadata ofs ofe ofps).frame_end -
             (extract_metadata ofs ofe ofps).frame_start + 1) ∧
    (extract_metadata (some v) (some v) ofps).frame_count = 1 ∧
    (mkRenderCtx existing now sfs sfe).frame_count = sfe - sfs + 1 ∧
    ((mkRenderCtx existing now sfs sfe).frame_count = max 1 (sfe - sfs + 1) ↔ sfs ≤ sfe) ∧
    (mkRenderCtx existing now v v).frame_count = 1 := by
  refine ⟨rfl, ?_, rfl, ?_, ?_⟩
  · simp [extract_metadata, extract_frame_range]
  · simp only [mkRenderCtx]
    constructor
    · intro h; omega
    · intro h; omega
  · simp [mkRenderCtx]

/-- Claim C4: the Strategy Ladder attempts strategies strictly in the
declared order; if the strategies before `s` each fail non-fatally and
`s` succeeds, the attempted list is exactly those strategies followed by
`s`, each once, the result is `opened`, and nothing after `s` is ever
attempted. -/
theorem ladder_first_success_stops (engine : OpenStrategy → Outcome)
    (pre post : List OpenStrategy) (s : OpenStrategy)
    (hpre : ∀ t ∈ pre, ∃ m, engine t = Outcome.failure m ∧ isFatalMsg m = false)
    (hs : engine s = Outcome.success) :
    runLadder engine (pre ++ s :: post) = (pre ++ [s], LadderResult.opened) := by
  rw [runLadder_nonfatal_skip engine pre (s :: post) hpre]
  simp [runLadder, hs]

theorem ladder_first_success_stops_witness :
    runLadder
      (fun t => if t.use_scripts = none then Outcome.success
                else Outcome.failure ("cannot open: invalid file"))
      ([ { load_ui := some false, use_scripts := some false, use_embedded_data := some false },
         { load_ui := some false, use_scripts := some false, use_embedded_data := none } ] ++
       { load_ui := some false, use_scripts := none, use_embedded_data := none } ::
       [ { load_ui := none, use_scripts := none, use_embedded_data := none } ]) =
    ([ { load_ui := some false, use_scripts := some false, use_embedded_data := some false },
       { load_ui := some false, use_scripts := some false, use_embedded_data := none } ] ++
     [ { load_ui := some false, use_scripts := none, use_embedded_data := none } ],
     LadderResult.opened) :=
  ladder_first_success_stops _ _ _ _
    (by
      intro t ht
      refine ⟨"cannot open: invalid file", ?_, by decide⟩
      fin_cases ht <;> rfl)
    rfl

/-- Claim C5: a strategy failure is fatal exactly when its message
contains `"Segmentation"` or, lowercased, contains `"fault"`; a
non-fatal failure is swallowed and the ladder continues with the next
strategy, while a fatal one aborts the ladder immediately with no
subsequent strategy attempted. -/
theorem ladder_fatal_aborts (engine : OpenStrategy → Outcome)
    (pre post : List OpenStrategy) (s : OpenStrategy) (msg : String)
    (hpre : ∀ t ∈ pre, ∃ m, engine t = Outcome.failure m ∧ isFatalMsg m = false)
    (hs : engine s = Outcome.failure msg) :
    (isFatalMsg msg =
      (strContains msg ("Segmentation") || strContains (strToLower msg) ("fault"))) ∧
    (isFatalMsg msg = false →
      runLadder engine (pre ++ s :: post) =
        (pre ++ s :: (runLadder engine post).1, (runLadder engine post).2)) ∧
    (isFatalMsg msg = true →
      runLadder engine (pre ++ s :: post) = (pre ++ [s], LadderResult.fatal msg)) := by
  refine ⟨rfl, ?_, ?_⟩
  · intro hnf
    rw [runLadder_nonfatal_skip engine pre (s :: post) hpre]
    simp [runLadder, hs, hnf]
  · intro hf
    rw [runLadder_nonfatal_skip engine pre (s :: post) hpre]
    simp [runLadder, hs, hf]

theorem ladder_fatal_aborts_witness :
    (isFatalMsg ("Segmentation fault") =
      (strContains ("Segmentation fault") ("Segmentation") ||
       strContains (strToLower ("Segmentation fault")) ("fault"))) ∧
    (isFatalMsg ("Segmentation fault") = false →
      runLadder
        (fun t => if t.use_scripts = none then Outcome.failure ("Segmentation fault")
                  else Outcome.failure ("cannot open: invalid file"))
        ([ { load_ui := some false, use_scripts := some false, use_embedded_data := some false } ] ++
         { load_ui := some false, use_scripts := none, use_embedded_data := none } ::
         [ { load_ui := none, use_scripts := none, use_embedded_data := none } ]) =
        ([ { load_ui := some false, use_scripts := some false, use_embedded_data := some false } ] ++
         { load_ui := some false, use_scripts := none, use_embedded_data := none } ::
         (runLadder
            (fun t => if t.use_scripts = none then Outcome.failure ("Segmentation fault")
                      else Outcome.failure ("cannot open: invalid file"))
            [ { load_ui := none, use_scripts := none, use_embedded_data := none } ]).1,
         (runLadder
            (fun t => if t.use_scripts = none then Outcome.failure ("Segmentation fault")
                      else Outcome.failure ("cannot open: invalid file"))
            [ { load_ui := none, use_scripts := none, use_embedded_data := none } ]).2)) ∧
    (isFatalMsg ("Segmentation fault") = true →
      runLadder
        (fun t => if t.use_scripts = none then Outcome.failure ("Segmentation fault")
                  else Outcome.failure ("cannot open: invalid file"))
        ([ { load_ui := some false, use_scripts := some false, use_embedded_data := some false } ] ++
         { load_ui := some false, use_scripts := none, use_embedded_data := none } ::
         [ { load_ui := none, use_scripts := none, use_embedded_data := none } ]) =
        ([ { load_ui := some false, use_scripts := some false, use_embedded_data := some false } ] ++
         [ { load_ui := some false, use_scripts := none, use_embedded_data := none } ],
         LadderResult.fatal ("Segmentation fault"))) :=
  ladder_fatal_aborts _ _ _ _ _
    (by
      intro t ht
      refine ⟨"cannot open: invalid file", ?_, by decide⟩
      fin_cases ht
      rfl)
    rfl

/-- Claim C6: the Header Sniffer is a total function into `Option`
(never raises past its boundary): an I/O failure maps to `none`, a file
shorter than 12 bytes maps to `none`, a mismatched 7-byte magic prefix
maps to `none`, and a well-formed file of at least 12 bytes beginning
with the magic `BLENDER` yields `some` `HeaderInfo` whose version is the
ASCII decode of bytes 9-11. -/
theorem read_blend_header_spec (bytes bsShort bsBad : List Nat)
    (h12 : 12 ≤ bytes.length) (hmagic : bytes.take 7 = blenderMagic)
    (hshort : bsShort.length < 12) (hbad : bsBad.take 7 ≠ blenderMagic) :
    read_blend_header none = none ∧
    read_blend_header (some bsShort) = none ∧
    read_blend_header (some bsBad) = none ∧
    read_blend_header (some bytes) =
      some { version := asciiIgnore (((bytes.take 12).drop 9).take 3)
             file_size := bytes.length
             pointer_size := if (bytes.take 12).getD 7 0 = 95 then "64-bit" else "32-bit" } := by
  refine ⟨rfl, ?_, ?_, ?_⟩
  · simp only [read_blend_header]
    simp
    intro h
    exact absurd h (by omega)
  · simp only [read_blend_header]
    simp
    intro _
    rw [List.take_take]
    exact hbad
  · have hlen : ¬ ((List.take 12 bytes).length < 12) := by
      rw [List.length_take]; omega
    have hm : List.take 7 (List.take 12 bytes) = blenderMagic := by
      rw [List.take_take]; exact hmagic
    simp [read_blend_header, hlen, hm]
    omega

theorem read_blend_header_spec_witness :
    read_blend_header none = none ∧
    read_blend_header (some [66]) = none ∧
    read_blend_header (some [0, 0, 0, 0, 0, 0, 0, 0, 0, 0, 0, 0]) = none ∧
    read_blend_header (some [66, 76, 69, 78, 68, 69, 82, 45, 118, 51, 48, 51]) =
      some { version := asciiIgnore ((([66, 76, 69, 78, 68, 69, 82, 45, 118, 51, 48, 51].take 12).drop 9).take 3)
             file_size := List.length [66, 76, 69, 78, 68, 69, 82, 45, 118, 51, 48, 51]
             pointer_size :=
               if ([66, 76, 69, 78, 68, 69, 82, 45, 118, 51, 48, 51].take 12).getD 7 0 = 95
               then "64-bit" else "32-bit" } :=
  read_blend_header_spec
    [66, 76, 69, 78, 68, 69, 82, 45, 118, 51, 48, 51] [66]
    [0, 0, 0, 0, 0, 0, 0, 0, 0, 0, 0, 0]
    (by decide) (by decide) (by decide) (by decide)

/-- Claim C2, counterexample: on a well-formed 12-byte `BLENDER` header
the fallback entry point of `read_blend_header.py` emits the
estimated-defaults record, and that record has no `estimated` key at
all (it marks estimation through `note` instead), so it does not
contain `estimated: true`. -/
theorem fallback_record_lacks_estimated_key :
    read_blend_header_main ("/tmp/uploaded.blend") true
        (some [66, 76, 69, 78, 68, 69, 82, 45, 118, 51, 48, 51]) =
      (fallback_success_record { version := "303", file_size := 12, pointer_size := "32-bit" }, 0) ∧
    List.lookup ("estimated")
      (fallback_success_record { version := "303", file_size := 12, pointer_size := "32-bit" }) =
      none := by
  exact ⟨by decide, rfl⟩

/-- Claim C2, amended: when the Header Sniffer succeeds, the fallback
entry point exits 0 with a record carrying `frame_start: 1`,
`frame_end: 250`, `fps: 24`, a `note` marking the values as estimated,
and a `blender_version` key echoing the detected format version — but
no `estimated` key; when the Header Sniffer returns `None`, an error
record with `error_type: ParseError` is emitted and the exit code is 1. -/
theorem fallback_synthesis (path : String) (file file2 : Option (List Nat))
    (hi : HeaderInfo)
    (hsome : read_blend_header file = some hi)
    (hnone : read_blend_header file2 = none) :
    read_blend_header_main path true file = (fallback_success_record hi, 0) ∧
    List.lookup ("frame_start") (fallback_success_record hi) = some (JVal.num 1) ∧
    List.lookup ("frame_end") (fallback_success_record hi) = some (JVal.num 250) ∧
    List.lookup ("fps") (fallback_success_record hi) = some (JVal.num 24) ∧
    List.lookup ("note") (fallback_success_record hi) =
      some (JVal.str ("Estimated values - file could not be fully opened")) ∧
    List.lookup ("blender_version") (fallback_success_record hi) =
      some (JVal.str hi.version) ∧
    List.lookup ("estimated") (fallback_success_record hi) = none ∧
    read_blend_header_main path true file2 = (parse_error_record, 1) ∧
    List.lookup ("error_type") parse_error_record = some (JVal.str ("ParseError")) := by
  refine ⟨?_, rfl, rfl, rfl, rfl, rfl, rfl, ?_, rfl⟩
  · simp [read_blend_header_main, hsome]
  · simp [read_blend_header_main, hnone]

theorem fallback_synthesis_witness :
    read_blend_header_main ("/tmp/uploaded.blend") true
        (some [66, 76, 69, 78, 68, 69, 82, 95, 118, 51, 48, 51]) =
      (fallback_success_record { version := "303", file_size := 12, pointer_size := "64-bit" }, 0) ∧
    List.lookup ("frame_start")
      (fallback_success_record { version := "303", file_size := 12, pointer_size := "64-bit" }) =
      some (JVal.num 1) ∧
    List.lookup ("frame_end")
      (fallback_success_record { version := "303", file_size := 12, pointer_size := "64-bit" }) =
      some (JVal.num 250) ∧
    List.lookup ("fps")
      (fallback_success_record { version := "303", file_size := 12, pointer_size := "64-bit" }) =
      some (JVal.num 24) ∧
    List.lookup ("note")
      (fallback_success_record { version := "303", file_size := 12, pointer_size := "64-bit" }) =
      some (JVal.str ("Estimated values - file could not be fully opened")) ∧
    List.lookup ("blender_version")
      (fallback_success_record { version := "303", file_size := 12, pointer_size := "64-bit" }) =
      some (JVal.str (HeaderInfo.version { version := "303", file_size := 12, pointer_size := "64-bit" })) ∧
    List.lookup ("estimated")
      (fallback_success_record { version := "303", file_size := 12, pointer_size := "64-bit" }) =
      none ∧
    read_blend_header_main ("/tmp/uploaded.blend") true none = (parse_error_record, 1) ∧
    List.lookup ("error_type") parse_error_record = some (JVal.str ("ParseError")) :=
  fallback_synthesis ("/tmp/uploaded.blend")
    (some [66, 76, 69, 78, 68, 69, 82, 95, 118, 51, 48, 51]) none
    { version := "303", file_size := 12, pointer_size := "64-bit" }
    (by decide) rfl

/-- Claim C3, counterexample: the Render Driver's post-render check
(`render_mp4.py` lines 199-204) tests only that the output file exists,
not that it is non-empty: an existing zero-byte artifact passes the
check and a success record with `success: true` and `file_size: 0` is
emitted instead of a `FileNotFoundError`-class failure. -/
theorem empty_artifact_passes_verification :
    verify_output true 0 (mkRenderCtx none 0 1 250) 24 =
      RenderOutcome.ok
        { success := true
          outPath := output_path
          file_size := 0
          frame_start := 1
          frame_end := 250
          frame_count := 250
          fps := 24 } := by
  decide

/-- Claim C3, amended: after the engine's render call returns, the
Render Driver verifies only that the declared output artifact exists on
disk; if it is absent, a `FileNotFoundError`-class failure is reported
and no success record is emitted, and if it exists — including the
zero-byte case — a `ResultRecord` with `success: true` carrying the
artifact's size is emitted. -/
theorem output_verification (size : Nat) (ctx : RenderCtx) (fps : Int)
    (r : ResultRecord) :
    verify_output false size ctx fps =
      RenderOutcome.failure ("FileNotFoundError")
        ("Output file was not created: " ++ output_path) ∧
    verify_output true size ctx fps =
      RenderOutcome.ok
        { success := true
          outPath := output_path
          file_size := size
          frame_start := ctx.frame_start
          frame_end := ctx.frame_end
          frame_count := ctx.frame_count
          fps := fps } ∧
    verify_output false size ctx fps ≠ RenderOutcome.ok r := by
  refine ⟨rfl, rfl, ?_⟩
  simp [verify_output]

/-- Claim C7: the Crash Shield's `signal_handler` emits exactly one
`ErrorRecord` whose `error_type` is `SignalError` and whose message
names the signal number, then exits with `128 + signum`; when emission
or flushing fails, the failure is swallowed (nothing is written) and
the exit code is still `128 + signum`. -/
theorem signal_handler_spec (signum : Nat) (emitOk : Bool) :
    (signal_handler signum true).1 = [signalErrorRecord signum] ∧
    (signal_handler signum true).1.length = 1 ∧
    (signalErrorRecord signum).error_type = "SignalError" ∧
    strContains (signalErrorRecord signum).error (toString signum) = true ∧
    (signal_handler signum emitOk).2 = 128 + signum ∧
    (signal_handler signum false).1 = [] := by
  refine ⟨rfl, rfl, rfl, ?_, rfl, rfl⟩
  show charsContain (toString signum).toList (signalErrorMessage signum).toList = true
  have hsplit : (signalErrorMessage signum).toList =
      ("Process terminated by signal ").toList ++ (toString signum).toList :=
    String.data_append _ _
  rw [hsplit]
  exact charsContain_append_self _ _

/-- Claim C8: within one render run every progress write carries the
`startedAt` captured once by `_ensure_started_at` — recovered from an
existing readable progress record (so a restart does not reset it), else
fixed at the current clock — unchanged across `on_render_init`,
`on_render_post`, `on_render_cancel` and the completion write; and
`updatedAt` strictly increases between `on_render_init` and the first
`on_render_post` whenever the wall clock advanced between the two
writes. -/
theorem progress_started_at_fixed (existing : Option ProgressRecord)
    (r0 : ProgressRecord) (now0 : Nat) (sfs sfe cur1 cur2 cur3 : Int)
    (t1 t2 t3 t4 : Nat) (hclock : t1 < t2) :
    (on_render_init (mkRenderCtx existing now0 sfs sfe) cur1 t1).startedAt =
      (mkRenderCtx existing now0 sfs sfe).started_at ∧
    (on_render_post (mkRenderCtx existing now0 sfs sfe) cur2 t2).startedAt =
      (mkRenderCtx existing now0 sfs sfe).started_at ∧
    (on_render_cancel (mkRenderCtx existing now0 sfs sfe) cur3 t3).startedAt =
      (mkRenderCtx existing now0 sfs sfe).started_at ∧
    (completed_progress (mkRenderCtx existing now0 sfs sfe) t4).startedAt =
      (mkRenderCtx existing now0 sfs sfe).started_at ∧
    ensure_started_at (some r0) now0 = r0.startedAt ∧
    ensure_started_at none now0 = now0 ∧
    (on_render_init (mkRenderCtx existing now0 sfs sfe) cur1 t1).updatedAt <
      (on_render_post (mkRenderCtx existing now0 sfs sfe) cur2 t2).updatedAt :=
  ⟨rfl, rfl, rfl, rfl, rfl, rfl, hclock⟩

theorem progress_started_at_fixed_witness :
    (on_render_init (mkRenderCtx none 5 1 3) 1 10).startedAt =
      (mkRenderCtx none 5 1 3).started_at ∧
    (on_render_post (mkRenderCtx none 5 1 3) 2 11).startedAt =
      (mkRenderCtx none 5 1 3).started_at ∧
    (on_render_cancel (mkRenderCtx none 5 1 3) 3 12).startedAt =
      (mkRenderCtx none 5 1 3).started_at ∧
    (completed_progress (mkRenderCtx none 5 1 3) 13).startedAt =
      (mkRenderCtx none 5 1 3).started_at ∧
    ensure_started_at
      (some { status := "rendering", frameStart := 1, frameEnd := 3, frameCount := 3,
              currentFrame := 1, framesDone := 0, startedAt := 5, updatedAt := 10 }) 5 =
      ProgressRecord.startedAt
        { status := "rendering", frameStart := 1, frameEnd := 3, frameCount := 3,
          currentFrame := 1, framesDone := 0, startedAt := 5, updatedAt := 10 } ∧
    ensure_started_at none 5 = 5 ∧
    (on_render_init (mkRenderCtx none 5 1 3) 1 10).updatedAt <
      (on_render_post (mkRenderCtx none 5 1 3) 2 11).updatedAt :=
  progress_started_at_fixed none
    { status := "rendering", frameStart := 1, frameEnd := 3, frameCount := 3,
      currentFrame := 1, framesDone := 0, startedAt := 5, updatedAt := 10 }
    5 1 3 1 2 3 10 11 12 13 (by decide)

/-- Claim C9: the top-level `except` ladder re-raises `SystemExit`, so
an exit initiated by the Crash Shield (`128 + signum`) or by the success
path (code 0) keeps its exit code and gains no generic `ErrorRecord`
with exit code 1, and every modelled invocation emits at most one
terminal record. -/
theorem system_exit_preserved (r : ResultRecord) (n : Nat) :
    driver_run (BodyOutcome.signaled n) =
      ([TermRecord.err (signalErrorRecord n)], 128 + n) ∧
    driver_run (BodyOutcome.success r) = ([TermRecord.ok r], 0) ∧
    (driver_run (BodyOutcome.signaled n)).2 ≠ 1 ∧
    top_level_dispatch (BodyExc.sysExit (128 + n)) = ([], 128 + n) ∧
    (∀ o : BodyOutcome, (driver_run o).1.length ≤ 1) := by
  refine ⟨rfl, rfl, ?_, rfl, ?_⟩
  · simp only [driver_run, body_emits, top_level_dispatch, signal_handler]
    omega
  · intro o
    cases o <;>
      simp [driver_run, body_emits, top_level_dispatch, signal_handler]

/-- Claim C10: every progress write of one render run — `on_render_init`,
`on_render_post`, `on_render_cancel` and the completion write — carries
the `frameStart`, `frameEnd` and `frameCount` captured once from the
scene before the handlers are registered (`render_mp4.py` lines
111-113); only the status, current-frame, frames-done and update-time
fields depend on the per-write arguments. -/
theorem progress_frame_fields_fixed (existing : Option ProgressRecord)
    (now0 : Nat) (sfs sfe cur1 cur2 cur3 : Int) (t1 t2 t3 t4 : Nat) :
    (on_render_init (mkRenderCtx existing now0 sfs sfe) cur1 t1).frameStart = sfs ∧
    (on_render_init (mkRenderCtx existing now0 sfs sfe) cur1 t1).frameEnd = sfe ∧
    (on_render_init (mkRenderCtx existing now0 sfs sfe) cur1 t1).frameCount = sfe - sfs + 1 ∧
    (on_render_post (mkRenderCtx existing now0 sfs sfe) cur2 t2).frameStart = sfs ∧
    (on_render_post (mkRenderCtx existing now0 sfs sfe) cur2 t2).frameEnd = sfe ∧
    (on_render_post (mkRenderCtx existing now0 sfs sfe) cur2 t2).frameCount = sfe - sfs + 1 ∧
    (on_render_cancel (mkRenderCtx existing now0 sfs sfe) cur3 t3).frameStart = sfs ∧
    (on_render_cancel (mkRenderCtx existing now0 sfs sfe) cur3 t3).frameEnd = sfe ∧
    (on_render_cancel (mkRenderCtx existing now0 sfs sfe) cur3 t3).frameCount = sfe - sfs + 1 ∧
    (completed_progress (mkRenderCtx existing now0 sfs sfe) t4).frameStart = sfs ∧
    (completed_progress (mkRenderCtx existing now0 sfs sfe) t4).frameEnd = sfe ∧
    (completed_progress (mkRenderCtx existing now0 sfs sfe) t4).frameCount = sfe - sfs + 1 :=
  ⟨rfl, rfl, rfl, rfl, rfl, rfl, rfl, rfl, rfl, rfl, rfl, rfl⟩
